import Mathlib

/-!
Verification of the `cohort_validator` Python package (OdyOSG/ohdsi-cohort-validator).

The package wraps the external Java CIRCE checker behind JPype.  We embed the
Python-side logic of `cohort_validator.py` and `cli.py` shallowly:

* Python exceptions become an explicit `PyExc` sum type; a `try` body becomes a
  value of `Except PyExc α` and the `except` clauses become a `match` on it.
* The external Java objects (`CohortExpression.fromJson`, `Checker.check`, the
  `Warning` objects) are parameters: a `JavaEnv` record of functions, each of
  which may raise.  The Java `Warning` interface surface actually consulted by
  the Python code (`toMessage`, optional `getSeverity`, class simple name) is
  the record `JavaWarning`.
* `json.dumps` is embedded as `pyJsonDumps` over a Python/JSON value type
  `PyVal` (default options of the stdlib encoder: ASCII escaping, separators
  `", "` and `": "`).
* The Java `CohortExpression` data reached only through the external checker is
  modelled from the spec (`CohortExpr`), since the circe-be sources are not in
  the repository snapshot.
-/

namespace CohortVal

/-- A Python exception, as far as the `except` clauses of the source distinguish
them: `json.JSONDecodeError`, `FileNotFoundError`, and any other `Exception`.
The payload models `str(e)`. -/
inductive PyExc where
  | jsonDecodeError (msg : String)
  | fileNotFound (msg : String)
  | otherException (msg : String)
deriving Repr, DecidableEq

/-- The surface of a Java `org.ohdsi.circe.check.Warning` object that
`validate_cohort` consults: `str(w.toMessage())`, `str(w.getSeverity())` when
the attribute exists (`none` models `hasattr(w, "getSeverity") == False`), and
`w.getClass().getSimpleName()`. -/
structure JavaWarning where
  toMessage : String
  getSeverity : Option String
  classSimpleName : String
deriving Repr, DecidableEq

/-- The `warning_dict` built by `validate_cohort` for each Java warning:
`{"message": ..., "severity": ..., "type": ...}` — exactly three string
fields. -/
structure Finding where
  message : String
  severity : String
  type : String
deriving Repr, DecidableEq

/-- `warning_dict = {"message": str(w.toMessage()), "severity": str(w.getSeverity()) if hasattr(w, "getSeverity") else "UNKNOWN", "type": str(w.getClass().getSimpleName())}`. -/
def mkFindingDict (w : JavaWarning) : Finding :=
  { message := w.toMessage
  , severity := w.getSeverity.getD "UNKNOWN"
  , type := w.classSimpleName }

/-- Python's `str.upper()` on the ASCII severity vocabulary: uppercase each
character. -/
def pyUpper (s : String) : String :=
  String.mk (s.data.map Char.toUpper)

/-- `severity = warning_dict["severity"].upper(); severity in ["CRITICAL", "ERROR"]`. -/
def isErrSev (d : Finding) : Bool :=
  pyUpper d.severity = "CRITICAL" ∨ pyUpper d.severity = "ERROR"

/-- One iteration of the `for java_warning in java_warnings` loop: append the
dict to `errors` when its severity is CRITICAL/ERROR, else to `warnings`. -/
def classifyStep (acc : List Finding × List Finding) (w : JavaWarning) :
    List Finding × List Finding :=
  let d := mkFindingDict w
  if isErrSev d then (acc.1, acc.2 ++ [d]) else (acc.1 ++ [d], acc.2)

/-- The severity-partition loop of `validate_cohort` (lines 160–181): starting
from `warnings = []; errors = []`, fold `classifyStep` over the checker's
warnings in order. -/
def classifyWarnings (l : List JavaWarning) : List Finding × List Finding :=
  l.foldl classifyStep ([], [])

/-- A Python value of the JSON-representable shapes that reach
`validate_cohort`: the CLI passes a parsed document (dict/list/scalars);
`validate_cohort_file` passes the file's raw text as a `str`. -/
inductive PyVal where
  | null
  | bool (b : Bool)
  | int (n : Int)
  | str (s : String)
  | list (xs : List PyVal)
  | dict (kvs : List (String × PyVal))

/-- Lower-case hexadecimal digit, as produced by the stdlib JSON encoder. -/
def hexDigit (n : Nat) : Char :=
  if n < 10 then Char.ofNat (48 + n) else Char.ofNat (87 + n)

/-- Four-digit hex payload of a backslash-u escape. -/
def hex4 (n : Nat) : String :=
  String.mk [hexDigit (n / 4096 % 16), hexDigit (n / 256 % 16),
             hexDigit (n / 16 % 16), hexDigit (n % 16)]

/-- Escaping of one character under `json.dumps` defaults (`ensure_ascii=True`):
the two-character escapes for quote, backslash and control whitespace, `\uXXXX`
for every other character outside printable ASCII (surrogate pairs beyond the
BMP). -/
def jsonEscapeChar (c : Char) : String :=
  if c = '"' then "\\\""
  else if c = '\\' then "\\\\"
  else if c = '\n' then "\\n"
  else if c = '\t' then "\\t"
  else if c = '\r' then "\\r"
  else if c.toNat = 8 then "\\b"
  else if c.toNat = 12 then "\\f"
  else if c.toNat < 32 ∨ c.toNat > 126 then
    if c.toNat < 65536 then "\\u" ++ hex4 c.toNat
    else
      "\\u" ++ hex4 (55296 + (c.toNat - 65536) / 1024) ++
      "\\u" ++ hex4 (56320 + (c.toNat - 65536) % 1024)
  else String.singleton c

/-- The JSON string literal `json.dumps` produces for a Python `str`. -/
def jsonStringLit (s : String) : String :=
  "\"" ++ String.join (s.toList.map jsonEscapeChar) ++ "\""

mutual

/-- `json.dumps` with default options: item separator `", "`, key separator
`": "`, ASCII-escaped strings. -/
def pyJsonDumps : PyVal → String
  | .null => "null"
  | .bool true => "true"
  | .bool false => "false"
  | .int n => toString n
  | .str s => jsonStringLit s
  | .list xs => "[" ++ pyDumpsElems xs ++ "]"
  | .dict kvs => "\x7b" ++ pyDumpsItems kvs ++ "\x7d"

/-- Comma-joined serialization of a JSON array's elements. -/
def pyDumpsElems : List PyVal → String
  | [] => ""
  | [x] => pyJsonDumps x
  | x :: y :: rest => pyJsonDumps x ++ ", " ++ pyDumpsElems (y :: rest)

/-- Comma-joined serialization of a JSON object's key/value pairs. -/
def pyDumpsItems : List (String × PyVal) → String
  | [] => ""
  | [(k, v)] => jsonStringLit k ++ ": " ++ pyJsonDumps v
  | (k, v) :: y :: rest =>
      jsonStringLit k ++ ": " ++ pyJsonDumps v ++ ", " ++ pyDumpsItems (y :: rest)

end

/-- Modelled from the spec: the Java `CohortExpression` built by
`CohortExpression.fromJson` lives in the circe-be submodule, which is not part
of the repository snapshot; per spec §3 we record only what its checker rules
need here — the declared concept-set ids and the `codesetId` references that
occur in the expression's criteria. -/
structure CohortExpr where
  conceptSetIds : List Int
  codesetRefs : List Int
deriving Repr, DecidableEq

/-- The external Java boundary used inside `validate_cohort`'s `try` block:
`CohortExpression.fromJson` applied to a serialized document, and
`Checker().check` applied to the resulting expression.  Either call may raise
(a raising call is an `Except.error`). -/
structure JavaEnv where
  fromJson : String → Except PyExc CohortExpr
  check : CohortExpr → Except PyExc (List JavaWarning)

/-- The document actually handed to the Java parser:
`json.dumps(cohort_json)` — applied unconditionally to the Python argument,
whatever its type. -/
def parserInput (cohort_json : PyVal) : String :=
  pyJsonDumps cohort_json

/-- The `try` body of `validate_cohort` up to the checker call:
`fromJson(json.dumps(cohort_json))` then `checker.check(...)`; exceptions
propagate out of the body. -/
def validate_body (env : JavaEnv) (cohort_json : PyVal) :
    Except PyExc (List JavaWarning) := do
  let expr ← env.fromJson (parserInput cohort_json)
  env.check expr

/-- The two `except` clauses of `validate_cohort`:
`except json.JSONDecodeError` yields `{"message": f"Invalid JSON: {e}",
"severity": "CRITICAL", "type": "JSON_ERROR"}`; `except Exception` (which also
covers `FileNotFoundError`) yields `{"message": f"Validation error: {e}",
"severity": "CRITICAL", "type": "VALIDATION_ERROR"}`. -/
def excFinding : PyExc → Finding
  | .jsonDecodeError m =>
      { message := "Invalid JSON: " ++ m, severity := "CRITICAL", type := "JSON_ERROR" }
  | .fileNotFound m =>
      { message := "Validation error: " ++ m, severity := "CRITICAL", type := "VALIDATION_ERROR" }
  | .otherException m =>
      { message := "Validation error: " ++ m, severity := "CRITICAL", type := "VALIDATION_ERROR" }

/-- `CohortValidator.validate_cohort` (lines 137–198): run the `try` body; on
success partition the checker's warnings by severity; on any exception return
`([], [single CRITICAL finding])`. -/
def validate_cohort (env : JavaEnv) (cohort_json : PyVal) :
    List Finding × List Finding :=
  match validate_body env cohort_json with
  | .ok jws => classifyWarnings jws
  | .error e => ([], [excFinding e])

/-- `json.dumps` as a state action on the (mutable, in Python) argument dict:
the serializer reads the value and leaves it unchanged — it is the only
operation of `validate_cohort` that touches `cohort_json` at all. -/
def dumpsSt (d : PyVal) : String × PyVal :=
  (pyJsonDumps d, d)

/-- `validate_cohort` with the Python argument threaded as mutable state —
every operation of the source that touches `cohort_json` passes the value
through, so a write by any of them would surface in the second component. -/
def validate_cohortSt (env : JavaEnv) (d0 : PyVal) :
    (List Finding × List Finding) × PyVal :=
  let (doc, d1) := dumpsSt d0
  (match (do
      let expr ← env.fromJson doc
      env.check expr : Except PyExc (List JavaWarning)) with
   | .ok jws => classifyWarnings jws
   | .error e => ([], [excFinding e]), d1)

/-- `CohortValidator.validate_cohort_file` (lines 200–232): read the file's
text (the read result is the `Except` argument), hand the RAW TEXT STRING to
`validate_cohort`; `except FileNotFoundError` and `except Exception` each
produce a single CRITICAL `FILE_ERROR` finding. -/
def validate_cohort_file (env : JavaEnv) (readResult : Except PyExc String)
    (file_path : String) : List Finding × List Finding :=
  match readResult with
  | .ok text => validate_cohort env (PyVal.str text)
  | .error (.fileNotFound _) =>
      ([], [{ message := "File not found: " ++ file_path
            , severity := "CRITICAL", type := "FILE_ERROR" }])
  | .error (.jsonDecodeError m) =>
      ([], [{ message := "File read error: " ++ m
            , severity := "CRITICAL", type := "FILE_ERROR" }])
  | .error (.otherException m) =>
      ([], [{ message := "File read error: " ++ m
            , severity := "CRITICAL", type := "FILE_ERROR" }])

/-- The CLI's `"is_valid": len(errors) == 0` (cli.py line 75). -/
def cli_is_valid (errors : List Finding) : Bool :=
  errors.length == 0

/-- The fallible boundary steps of `cli.main`'s `try` block, in source order:
`input_path.exists()`, `json.load(f)`, `CohortValidator(**kwargs)`, and the
writing/printing of the formatted output. -/
structure CliEnv where
  inputExists : Bool
  loadJson : Except PyExc PyVal
  initValidator : Except PyExc JavaEnv
  outputWrite : Except PyExc Unit

/-- Where a `cli.main` run ends up: one of the failure paths, or completion
with the validation result. -/
inductive CliOutcome where
  | missingFile
  | loadFailed (e : PyExc)
  | initFailed (e : PyExc)
  | writeFailed (e : PyExc) (warnings errors : List Finding)
  | completed (warnings errors : List Finding)
deriving Repr, DecidableEq

/-- The control flow of `cli.main` (lines 43–96): missing input file prints an
error and exits 1; any exception in the `try` block is caught and exits 1; a
completed run reaches `sys.exit(0 if len(errors) == 0 else 1)`. -/
def cliRun (env : CliEnv) : CliOutcome :=
  if env.inputExists = false then .missingFile
  else
    match env.loadJson with
    | .error e => .loadFailed e
    | .ok data =>
        match env.initValidator with
        | .error e => .initFailed e
        | .ok jenv =>
            let r := validate_cohort jenv data
            match env.outputWrite with
            | .error e => .writeFailed e r.1 r.2
            | .ok _ => .completed r.1 r.2

/-- The process exit status of `cli.main`: `sys.exit(1)` on the missing-file
path and in `except Exception`; otherwise `sys.exit(0 if len(errors) == 0 else 1)`. -/
def cliExit (env : CliEnv) : Nat :=
  match cliRun env with
  | .completed _ errors => if errors.length = 0 then 0 else 1
  | _ => 1

/-- A finding rendered back to the Python dict it is, for serialization. -/
def findingToPyVal (f : Finding) : PyVal :=
  .dict [("message", .str f.message), ("severity", .str f.severity),
         ("type", .str f.type)]

/-- The serialized bytes of a `(warnings, errors)` result, as the CLI's JSON
output embeds them. -/
def resultBytes (r : List Finding × List Finding) : String :=
  pyJsonDumps (.dict [("warnings", .list (r.1.map findingToPyVal)),
                      ("errors", .list (r.2.map findingToPyVal))])

/-- Modelled from the spec: the CIRCE checker's handling of a dangling codeset
reference (spec §3, §4.4, §8) — a criterion whose `codesetId` matches no
declared concept set makes the checker emit a finding for that condition
rather than fail.  The circe-be rule sources are not in the repository
snapshot, so the rule is reconstructed from the spec's words. -/
def specDanglingRefWarnings (e : CohortExpr) : List JavaWarning :=
  (e.codesetRefs.filter (fun r => ¬ e.conceptSetIds.contains r)).map
    (fun r =>
      { toMessage := "Criteria references codeset id " ++ toString r ++
          " which is not declared in ConceptSets"
      , getSeverity := some "ERROR"
      , classSimpleName := "DanglingReferenceCheck" })

/-- The spec's dangling-reference scenario (§8): one declared concept set with
id 1, a criterion referencing `CodesetId = 99`. -/
def danglingExpr : CohortExpr :=
  { conceptSetIds := [1], codesetRefs := [99] }

/-- A serialized form of the dangling-reference document, as the CLI would
parse it: only the fields of `danglingExpr` are relevant. -/
def danglingDoc : PyVal :=
  .dict [("ConceptSets", .list [.dict [("id", .int 1)]]),
         ("PrimaryCriteria", .dict [("CodesetId", .int 99)])]

/-- A Java boundary for the dangling scenario: `fromJson` succeeds and builds
`danglingExpr`; the checker is the spec-modelled dangling-reference rule. -/
def danglingEnv : JavaEnv :=
  { fromJson := fun _ => .ok danglingExpr
  , check := fun e => .ok (specDanglingRefWarnings e) }

/-- A Java boundary whose `fromJson` raises `json.JSONDecodeError`, exercising
the `except json.JSONDecodeError` clause of `validate_cohort`. -/
def jsonFailEnv : JavaEnv :=
  { fromJson := fun _ => .error (.jsonDecodeError "Expecting value: line 1 column 1 (char 0)")
  , check := fun _ => .ok [] }

/-- Concrete document for the file-vs-dict discrepancy: the parsed document. -/
def c8Doc : PyVal :=
  .dict [("ConceptSets", .list []), ("PrimaryCriteria", .dict [])]

/-- The text stored in the file: exactly the serialization of `c8Doc`, so the
file contains the JSON document `c8Doc`. -/
def c8Text : String :=
  pyJsonDumps c8Doc

/-- A Java boundary that parses the document `c8Doc` (and only it) into an
empty expression with no findings; any other serialized input — in particular
the string-literal encoding of the file text — fails to map to a
`CohortExpression` and raises. -/
def c8Env : JavaEnv :=
  { fromJson := fun s =>
      if s = pyJsonDumps c8Doc then .ok { conceptSetIds := [], codesetRefs := [] }
      else .error (.otherException "Cannot construct CohortExpression from value")
  , check := fun _ => .ok [] }

/-- Sample checker warnings covering the severity vocabulary, including one
without a `getSeverity` accessor. -/
def wInfo : JavaWarning :=
  { toMessage := "inclusion rules are empty", getSeverity := some "INFO"
  , classSimpleName := "InclusionRulesCheck" }

def wWarning : JavaWarning :=
  { toMessage := "concept set is not used", getSeverity := some "WARNING"
  , classSimpleName := "UnusedConceptsCheck" }

def wError : JavaWarning :=
  { toMessage := "range is contradictory", getSeverity := some "ERROR"
  , classSimpleName := "RangeCheck" }

def wCritical : JavaWarning :=
  { toMessage := "primary criteria missing", getSeverity := some "CRITICAL"
  , classSimpleName := "PrimaryCriteriaCheck" }

def wNoSeverity : JavaWarning :=
  { toMessage := "anonymous finding", getSeverity := none
  , classSimpleName := "MysteryCheck" }

/-- A Java boundary that succeeds with the five sample warnings. -/
def sampleEnv : JavaEnv :=
  { fromJson := fun _ => .ok { conceptSetIds := [], codesetRefs := [] }
  , check := fun _ => .ok [wInfo, wWarning, wError, wCritical, wNoSeverity] }

theorem classifyWarnings_go (l : List JavaWarning) :
    ∀ acc : List Finding × List Finding,
      l.foldl classifyStep acc =
        (acc.1 ++ (l.map mkFindingDict).filter (fun d => ¬ isErrSev d),
         acc.2 ++ (l.map mkFindingDict).filter (fun d => isErrSev d)) := by
  induction l with
  | nil => intro acc; simp
  | cons w rest ih =>
      intro acc
      simp only [List.foldl_cons, List.map_cons, List.filter_cons]
      rw [ih]
      by_cases h : isErrSev (mkFindingDict w)
      · simp [classifyStep, h]
      · simp [classifyStep, h]

/-- Closed form of the loop: `warnings` is the non-error findings in order,
`errors` the CRITICAL/ERROR findings in order. -/
theorem classifyWarnings_eq (l : List JavaWarning) :
    classifyWarnings l =
      ((l.map mkFindingDict).filter (fun d => ¬ isErrSev d),
       (l.map mkFindingDict).filter (fun d => isErrSev d)) := by
  simpa using classifyWarnings_go l ([], [])

/-- Claim C1: `validate_cohort` partitions the checker's findings into
`(warnings, errors)`: a finding is in `errors` iff its severity string,
uppercased, is ERROR or CRITICAL; every INFO/WARNING finding is in `warnings`;
the CLI's `is_valid` verdict is true iff the errors list is empty.  The
classification (`classifyWarnings`) is a total Lean function — pure, with no
failure mode. -/
theorem C1_severity_partition (l : List JavaWarning) :
    (∀ f, f ∈ (classifyWarnings l).2 ↔
        f ∈ l.map mkFindingDict ∧
          (pyUpper f.severity = "ERROR" ∨ pyUpper f.severity = "CRITICAL")) ∧
    (∀ f, f ∈ l.map mkFindingDict →
        f.severity = "INFO" ∨ f.severity = "WARNING" →
          f ∈ (classifyWarnings l).1) ∧
    (∀ errors : List Finding, cli_is_valid errors = true ↔ errors = []) := by
  refine ⟨?_, ?_, ?_⟩
  · intro f
    rw [classifyWarnings_eq]
    simp only [List.mem_filter, isErrSev, decide_eq_true_eq]
    tauto
  · intro f hf hsev
    rw [classifyWarnings_eq]
    simp only [List.mem_filter]
    refine ⟨hf, ?_⟩
    rcases hsev with h | h <;> simp only [isErrSev, h] <;> decide
  · intro errors
    simp [cli_is_valid, List.length_eq_zero]

theorem C1_severity_partition_witness :
    mkFindingDict wInfo ∈ (classifyWarnings [wInfo, wError]).1 :=
  (C1_severity_partition [wInfo, wError]).2.1 (mkFindingDict wInfo)
    (by simp) (Or.inl rfl)

/-- Claim C2 counterexample: the `except json.JSONDecodeError` clause of
`validate_cohort` emits a finding of type "JSON_ERROR"; at a boundary whose
parse raises `json.JSONDecodeError`, the single CRITICAL finding's type is
neither "PARSE_ERROR" nor "VALIDATION_ERROR", contradicting the claimed
vocabulary. -/
theorem C2_counterexample :
    (validate_cohort jsonFailEnv (PyVal.dict [])).1 = [] ∧
    ∃ f, (validate_cohort jsonFailEnv (PyVal.dict [])).2 = [f] ∧
      f.severity = "CRITICAL" ∧ f.type = "JSON_ERROR" ∧
      ¬(f.type = "PARSE_ERROR" ∨ f.type = "VALIDATION_ERROR") := by
  refine ⟨rfl, excFinding (.jsonDecodeError "Expecting value: line 1 column 1 (char 0)"),
    rfl, rfl, rfl, by decide⟩

/-- Claim C2 (amended): whenever the ingestion of the input document raises —
malformed JSON or failed structural construction — `validate_cohort` returns
an empty warnings list and exactly one CRITICAL finding whose type is
"JSON_ERROR" (for `json.JSONDecodeError`) or "VALIDATION_ERROR" (any other
exception), and the rule catalog is not run: the result does not depend on the
`check` function at all. -/
theorem C2_ingestion_failure (env env2 : JavaEnv) (j : PyVal) (e : PyExc)
    (henv : env2.fromJson = env.fromJson)
    (h : env.fromJson (parserInput j) = .error e) :
    validate_cohort env j = ([], [excFinding e]) ∧
    validate_cohort env2 j = validate_cohort env j ∧
    (excFinding e).severity = "CRITICAL" ∧
    ((excFinding e).type = "JSON_ERROR" ∨ (excFinding e).type = "VALIDATION_ERROR") := by
  have hbody : validate_body env j = .error e := by
    unfold validate_body
    rw [h]; rfl
  have hbody2 : validate_body env2 j = .error e := by
    unfold validate_body
    rw [henv, h]; rfl
  refine ⟨?_, ?_, ?_, ?_⟩
  · unfold validate_cohort; rw [hbody]
  · unfold validate_cohort; rw [hbody, hbody2]
  · cases e <;> rfl
  · cases e <;> simp [excFinding]

theorem C2_ingestion_failure_witness :
    validate_cohort jsonFailEnv (PyVal.dict []) =
      ([], [excFinding (.jsonDecodeError "Expecting value: line 1 column 1 (char 0)")]) :=
  (C2_ingestion_failure jsonFailEnv jsonFailEnv (PyVal.dict [])
    (.jsonDecodeError "Expecting value: line 1 column 1 (char 0)") rfl rfl).1

/-- Claim C3: `validate_cohort` never raises — an exception anywhere in the
`try` body becomes a returned `(warnings, errors)` pair, and a successful body
returns the severity partition; in particular the dangling-reference scenario
(a criterion with `CodesetId = 99` and no concept set with id 99) completes
normally with a finding emitted, not a crash. -/
theorem C3_never_raises (env : JavaEnv) (j : PyVal) :
    (∀ e, validate_body env j = .error e →
        validate_cohort env j = ([], [excFinding e])) ∧
    (∀ jws, validate_body env j = .ok jws →
        validate_cohort env j = classifyWarnings jws) ∧
    validate_cohort danglingEnv danglingDoc =
      ([], [{ message := "Criteria references codeset id 99 which is not declared in ConceptSets"
            , severity := "ERROR", type := "DanglingReferenceCheck" }]) := by
  refine ⟨?_, ?_, ?_⟩
  · intro e he; unfold validate_cohort; rw [he]
  · intro jws hok; unfold validate_cohort; rw [hok]
  · decide

theorem C3_never_raises_witness :
    validate_cohort sampleEnv danglingDoc =
      classifyWarnings [wInfo, wWarning, wError, wCritical, wNoSeverity] :=
  (C3_never_raises sampleEnv danglingDoc).2.1
    [wInfo, wWarning, wError, wCritical, wNoSeverity] rfl

/-- Claim C4: the CLI exits 0 iff the run completed with an empty errors list;
in every other case — missing input file, load/initialization failure, output
write failure, or a nonempty errors list — it exits nonzero (namely 1). -/
theorem C4_exit_code (env : CliEnv) :
    (cliExit env = 0 ∨ cliExit env = 1) ∧
    (cliExit env = 0 ↔ ∃ ws, cliRun env = .completed ws []) := by
  cases h : cliRun env with
  | completed ws errors =>
      refine ⟨?_, ?_⟩
      · by_cases he : errors.length = 0 <;> simp [cliExit, h, he]
      · by_cases he : errors.length = 0
        · have he' := List.length_eq_zero.mp he
          subst he'
          simp [cliExit, h]
        · have he' : errors ≠ [] := fun hc => he (by simp [hc])
          simp [cliExit, h, he, he']
  | missingFile => exact ⟨Or.inr (by simp [cliExit, h]), by simp [cliExit, h]⟩
  | loadFailed e => exact ⟨Or.inr (by simp [cliExit, h]), by simp [cliExit, h]⟩
  | initFailed e => exact ⟨Or.inr (by simp [cliExit, h]), by simp [cliExit, h]⟩
  | writeFailed e ws errors =>
      exact ⟨Or.inr (by simp [cliExit, h]), by simp [cliExit, h]⟩

/-- Claim C5: determinism — any two calls of `validate_cohort` on the same
fixed input yield equal `(warnings, errors)` pairs, and their serialized
output is byte-identical; the embedded call consults no mutable state. -/
theorem C5_deterministic (env : JavaEnv) (j : PyVal)
    (r1 r2 : List Finding × List Finding)
    (h1 : r1 = validate_cohort env j) (h2 : r2 = validate_cohort env j) :
    r1 = r2 ∧ resultBytes r1 = resultBytes r2 := by
  subst h1; subst h2; exact ⟨rfl, rfl⟩

theorem C5_deterministic_witness :
    validate_cohort sampleEnv (PyVal.dict []) = validate_cohort sampleEnv (PyVal.dict []) ∧
    resultBytes (validate_cohort sampleEnv (PyVal.dict [])) =
      resultBytes (validate_cohort sampleEnv (PyVal.dict [])) :=
  C5_deterministic sampleEnv (PyVal.dict []) _ _ rfl rfl

/-- Claim C6: `validate_cohort` never mutates its input — threading the
argument value through every operation of the call that touches it, the final
value is the initial one, and the returned pair agrees with
`validate_cohort`. -/
theorem C6_no_input_mutation (env : JavaEnv) (d : PyVal) :
    (validate_cohortSt env d).2 = d ∧
    (validate_cohortSt env d).1 = validate_cohort env d :=
  ⟨rfl, rfl⟩

/-- Claim C7: every finding `validate_cohort` returns, in either list, is a
record of exactly the three string fields message/severity/type; its type is
the originating rule's identifier — the Java warning class's simple name on
the success path, or the fixed exception-branch identifiers "JSON_ERROR" /
"VALIDATION_ERROR". -/
theorem C7_finding_fields (env : JavaEnv) (j : PyVal) (f : Finding)
    (hf : f ∈ (validate_cohort env j).1 ++ (validate_cohort env j).2) :
    (∃ m s t, f = { message := m, severity := s, type := t }) ∧
    ((∃ jws w, validate_body env j = .ok jws ∧ w ∈ jws ∧
        f.type = w.classSimpleName ∧ f.message = w.toMessage) ∨
      f.type = "JSON_ERROR" ∨ f.type = "VALIDATION_ERROR") := by
  refine ⟨⟨f.message, f.severity, f.type, rfl⟩, ?_⟩
  cases hb : validate_body env j with
  | error e =>
      right
      unfold validate_cohort at hf
      rw [hb] at hf
      simp at hf
      subst hf
      cases e <;> simp [excFinding]
  | ok jws =>
      left
      unfold validate_cohort at hf
      rw [hb] at hf
      have hf' : f ∈ (classifyWarnings jws).1 ++ (classifyWarnings jws).2 := hf
      rw [classifyWarnings_eq] at hf'
      have hmem : f ∈ jws.map mkFindingDict := by
        rcases List.mem_append.mp hf' with h | h
        · exact (List.mem_filter.mp h).1
        · exact (List.mem_filter.mp h).1
      rcases List.mem_map.mp hmem with ⟨w, hw, hfw⟩
      exact ⟨jws, w, rfl, hw, by rw [← hfw]; rfl, by rw [← hfw]; rfl⟩

theorem C7_finding_fields_witness :
    (∃ m s t, mkFindingDict wInfo = Finding.mk m s t) ∧
    ((∃ jws w, validate_body sampleEnv (PyVal.dict []) = .ok jws ∧ w ∈ jws ∧
        (mkFindingDict wInfo).type = w.classSimpleName ∧
        (mkFindingDict wInfo).message = w.toMessage) ∨
      (mkFindingDict wInfo).type = "JSON_ERROR" ∨
      (mkFindingDict wInfo).type = "VALIDATION_ERROR") :=
  C7_finding_fields sampleEnv (PyVal.dict []) (mkFindingDict wInfo) (by decide)

/-- Claim C8: `validate_cohort_file` hands the file's raw text — not the
parsed document — to `validate_cohort`, which unconditionally JSON-encodes
its argument, so the parser receives the string-literal encoding of the
file's text; on a concrete document the file call and the parsed-document
call disagree. -/
theorem C8_file_passes_raw_text :
    (∀ (env : JavaEnv) (t path : String),
        validate_cohort_file env (.ok t) path = validate_cohort env (.str t)) ∧
    (∀ t, parserInput (.str t) = jsonStringLit t) ∧
    validate_cohort c8Env (.str c8Text) ≠ validate_cohort c8Env c8Doc := by
  refine ⟨fun env t path => rfl, fun t => rfl, ?_⟩
  decide

/-- Claim C9: a finding whose uppercased severity is neither "CRITICAL" nor
"ERROR" — including one without a `getSeverity` accessor, which receives the
severity "UNKNOWN" — is classified as a warning and never as an error, and
each emitted finding lands in exactly one of the two lists. -/
theorem C9_non_error_is_warning (l : List JavaWarning) (w : JavaWarning)
    (hw : w ∈ l) :
    (w.getSeverity = none → (mkFindingDict w).severity = "UNKNOWN") ∧
    (pyUpper (mkFindingDict w).severity ≠ "CRITICAL" →
      pyUpper (mkFindingDict w).severity ≠ "ERROR" →
        mkFindingDict w ∈ (classifyWarnings l).1 ∧
        mkFindingDict w ∉ (classifyWarnings l).2) ∧
    (∀ f, f ∈ l.map mkFindingDict →
        (f ∈ (classifyWarnings l).1 ∨ f ∈ (classifyWarnings l).2) ∧
        ¬(f ∈ (classifyWarnings l).1 ∧ f ∈ (classifyWarnings l).2)) := by
  refine ⟨?_, ?_, ?_⟩
  · intro h
    simp [mkFindingDict, h]
  · intro h1 h2
    rw [classifyWarnings_eq]
    have herr : isErrSev (mkFindingDict w) = false := by
      simp [isErrSev, h1, h2]
    constructor
    · exact List.mem_filter.mpr ⟨List.mem_map_of_mem _ hw, by simp [herr]⟩
    · intro hc
      have hc2 := (List.mem_filter.mp hc).2
      simp [herr] at hc2
  · intro f hfmem
    rw [classifyWarnings_eq]
    by_cases he : isErrSev f
    · refine ⟨Or.inr (List.mem_filter.mpr ⟨hfmem, by simp [he]⟩), ?_⟩
      rintro ⟨hin1, hin2⟩
      have hcon := (List.mem_filter.mp hin1).2
      simp [he] at hcon
    · refine ⟨Or.inl (List.mem_filter.mpr ⟨hfmem, by simp [he]⟩), ?_⟩
      rintro ⟨hin1, hin2⟩
      have hcon := (List.mem_filter.mp hin2).2
      simp [he] at hcon

theorem C9_non_error_is_warning_witness :
    (mkFindingDict wNoSeverity).severity = "UNKNOWN" ∧
    mkFindingDict wNoSeverity ∈ (classifyWarnings [wNoSeverity]).1 ∧
    mkFindingDict wNoSeverity ∉ (classifyWarnings [wNoSeverity]).2 := by
  have h := C9_non_error_is_warning [wNoSeverity] wNoSeverity (by simp)
  exact ⟨h.1 rfl, (h.2.1 (by decide) (by decide)).1, (h.2.1 (by decide) (by decide)).2⟩

/-- Claim C10: `validate_cohort_file` returns normally for every read outcome:
a failed read — file missing or any other read error — yields an empty
warnings list and exactly one CRITICAL finding of type "FILE_ERROR"; a
successful read delegates to `validate_cohort` on the raw text. -/
theorem C10_file_error_handling (env : JavaEnv) (r : Except PyExc String)
    (path : String) :
    (∀ e, r = .error e → ∃ m, validate_cohort_file env r path =
        ([], [{ message := m, severity := "CRITICAL", type := "FILE_ERROR" }])) ∧
    (∀ t, r = .ok t →
        validate_cohort_file env r path = validate_cohort env (.str t)) := by
  constructor
  · rintro e rfl
    cases e with
    | jsonDecodeError m => exact ⟨"File read error: " ++ m, rfl⟩
    | fileNotFound m => exact ⟨"File not found: " ++ path, rfl⟩
    | otherException m => exact ⟨"File read error: " ++ m, rfl⟩
  · rintro t rfl
    rfl

theorem C10_file_error_handling_witness :
    ∃ m, validate_cohort_file sampleEnv (.error (.fileNotFound "mock")) "missing.json" =
      ([], [{ message := m, severity := "CRITICAL", type := "FILE_ERROR" }]) :=
  (C10_file_error_handling sampleEnv (.error (.fileNotFound "mock")) "missing.json").1
    (.fileNotFound "mock") rfl

end CohortVal
